import Mathlib

/-!
Verification of the reconciliation core of `release2gitee`, a tool that
mirrors GitHub releases (metadata and binary assets) to a Gitee repository.

The development shallowly embeds the pure decision logic of `src/lib.rs`:

* the post-fetch normalization of origin releases (`github_releases`),
* the candidate filter (`filter_github_releases`) together with the
  maximum-tag computation it performs over the mirror list,
* the per-release create-or-update decision (`gitee_release_create_or_update`),
* the asset diff (`release_asserts_diff`),
* the transfer loops (`download_release_asserts` / `upload_release_asserts`)
  with the file system and the network abstracted as oracles,
* the retention pruner (`clean_oldest_gitee_releases`), and
* the operation trace of a full run of `sync_github_releases_to_gitee`.

Remote registries and the local file system are modelled as parameters
(fetched lists, success/failure oracles); everything else is translated
directly from the Rust source.  String manipulation is implemented over
`List Char` with structural recursion so that every definition evaluates
inside the kernel.
-/

namespace Release2Gitee

/-- Character-list replacement loop modelling Rust's `str::replace`:
replaces each non-overlapping, leftmost occurrence of `pat` by `rep`.
The `fuel` argument (instantiated with the input length) only makes the
recursion structural; one unit of fuel is spent per consumed character. -/
def replaceLoop (pat rep : List Char) : Nat → List Char → List Char
  | _, [] => []
  | 0, l => l
  | fuel + 1, c :: rest =>
    if pat.isPrefixOf (c :: rest) then
      rep ++ replaceLoop pat rep fuel (rest.drop (pat.length - 1))
    else
      c :: replaceLoop pat rep fuel rest

/-- Model of Rust's `String::replace(&src, &tar)` (an empty pattern, which the
program never produces, is treated as a no-op). -/
def string_replace (s pat rep : String) : String :=
  if pat.data.isEmpty then s else ⟨replaceLoop pat.data rep.data s.data.length s.data⟩

/-- Splits a character list on the dot separator (model of `str::split('.')`). -/
def splitOnDot : List Char → List (List Char)
  | [] => [[]]
  | c :: rest =>
    let r := splitOnDot rest
    if c = '.' then [] :: r
    else
      match r with
      | [] => [[c]]
      | h :: t => (c :: h) :: t

/-- Parses a nonempty all-digit character list as a natural number. -/
def parseNatChars (l : List Char) : Option Nat :=
  if l ≠ [] ∧ l.all (fun c => c.isDigit) then
    some (l.foldl (fun n c => n * 10 + (c.toNat - 48)) 0)
  else none

/-- Drops one leading letter v, the version-tag normalization of §4.2. -/
def stripV : List Char → List Char
  | 'v' :: rest => rest
  | l => l

/-- Modelled from the spec: the `version_compare` crate used by
`filter_github_releases` is an external dependency whose source is not part
of this repository.  Following §4.2, a tag parses as a version when, after
the leading-v normalization, every dot-separated component is a decimal
numeral; a tag that fails to parse (for example the empty string) makes the
comparison inconclusive. -/
def parseVersionParts (s : String) : Option (List Nat) :=
  let parts := splitOnDot (stripV s.data)
  if parts.all (fun p => (parseNatChars p).isSome) then
    some (parts.map (fun p => (parseNatChars p).getD 0))
  else none

/-- Componentwise comparison of parsed version numerals; a missing component
counts as zero, so trailing zeros do not distinguish versions. -/
def cmpParts : List Nat → List Nat → Ordering
  | [], bs => if bs.all (fun b => b = 0) then Ordering.eq else Ordering.lt
  | as, [] => if as.all (fun a => a = 0) then Ordering.eq else Ordering.gt
  | a :: as, b :: bs =>
    if a < b then Ordering.lt
    else if b < a then Ordering.gt
    else cmpParts as bs

/-- Modelled from the spec: `version_compare::compare` (§4.2) — `none` is the
inconclusive result the crate reports as `Err`. -/
def compareVersions (a b : String) : Option Ordering :=
  match parseVersionParts a, parseVersionParts b with
  | some pa, some pb => some (cmpParts pa pb)
  | _, _ => none

/-- Release asset, from `model.rs` (the source spells the type `Assert`). -/
structure Assert where
  name : String
  size : Option Nat
  browser_download_url : String
deriving DecidableEq, Repr

/-- Release record, from `model.rs`.  The `assets` field is not serialized
back to the registry on create/update; it is mirrored through the separate
attach-file operation. -/
structure Release where
  id : Nat
  tag_name : String
  name : String
  body : Option String
  prerelease : Bool
  target_commitish : String
  assets : List Assert
deriving DecidableEq, Repr

/-- Configuration, from `model.rs` (the verbosity flag, pure logging
plumbing, is omitted). -/
structure Cli where
  github_owner : String
  github_repo : String
  github_token : Option String
  gitee_owner : String
  gitee_repo : String
  gitee_token : String
  github_latest_release_count : Nat
  gitee_retain_release_count : Nat
  ignore_lt_gitee_max_version : Bool
  release_body_url_replace : Bool
  latest_json_url_replace : Bool
deriving DecidableEq, Repr

/-- Rewrites the origin's canonical base URL into the mirror's, from
`replace_download_url` in `lib.rs`. -/
def replace_download_url (cli : Cli) (content : String) : String :=
  let src := "https://github.com/" ++ cli.github_owner ++ "/" ++ cli.github_repo
  let tar := "https://gitee.com/" ++ cli.gitee_owner ++ "/" ++ cli.gitee_repo
  string_replace content src tar

/-- URL rewrite of a release body, gated by the configuration toggle, from
`replace_release_body_url` in `lib.rs`. -/
def replace_release_body_url (cli : Cli) (content : String) : String :=
  if cli.release_body_url_replace then replace_download_url cli content else content

/-- Stable sort by ascending id followed by a reversal, the ordering
normalization both `github_releases` and `gitee_releases` apply after
fetching (`sort_by_key(id)` then `reverse`), leaving the newest release
first. -/
def sortDescById (l : List Release) : List Release :=
  (List.insertionSort (fun a b => a.id ≤ b.id) l).reverse

/-- Body substitution performed by `github_releases` in `lib.rs`: an absent
or empty body is replaced by the release's tag name. -/
def set_body_if_empty (release : Release) : Release :=
  if release.body.getD "" = "" then { release with body := some release.tag_name } else release

/-- Pure post-processing `github_releases` applies to the fetched origin
list: sort descending by id, then substitute empty bodies. -/
def github_releases_post (fetched : List Release) : List Release :=
  (sortDescById fetched).map set_body_if_empty

/-- Model of `Iterator::max_by`: the last element that is maximal under the
comparison is returned, `none` on an empty list. -/
def max_by_last (f : String → String → Ordering) : List String → Option String
  | [] => none
  | t :: ts => some (ts.foldl (fun acc x => if f acc x = Ordering.gt then acc else x) t)

/-- Maximum mirror tag as computed inside `filter_github_releases`:
`max_by` over the tag names, with an inconclusive comparison collapsed to
equality (`unwrap_or(Cmp::Eq)` / `unwrap_or(Equal)` in the source). -/
def maxGiteeTag (cmp : String → String → Option Ordering) (gitee_releases : List Release) :
    Option String :=
  max_by_last (fun a b => (cmp a b).getD Ordering.eq) (gitee_releases.map (fun r => r.tag_name))

/-- Keep/drop decision of the version filter closure in
`filter_github_releases`: drop when the mirror's maximum tag compares
greater or equal, keep otherwise — in particular keep when the comparison
fails. -/
def version_keep (cmp : String → String → Option Ordering) (max_gitee_tag : String)
    (release : Release) : Bool :=
  match cmp max_gitee_tag release.tag_name with
  | some Ordering.gt => false
  | some Ordering.eq => false
  | some Ordering.lt => true
  | none => true

/-- Candidate filter from `filter_github_releases` in `lib.rs`.  The first
step mirrors the source exactly: the `take` is only performed when the
retain count exceeds the list length.  The comparator of the
`version_compare` crate is passed as the `cmp` parameter. -/
def filter_github_releases (cmp : String → String → Option Ordering) (cli : Cli)
    (gitee_releases github_releases : List Release) : List Release :=
  let retain0 := github_releases
  let retain1 :=
    if cli.gitee_retain_release_count > retain0.length then
      retain0.take cli.gitee_retain_release_count
    else retain0
  if cli.ignore_lt_gitee_max_version && !gitee_releases.isEmpty then
    match maxGiteeTag cmp gitee_releases with
    | some max_gitee_tag => retain1.filter (version_keep cmp max_gitee_tag)
    | none => retain1
  else retain1

/-- Retention pruner from `clean_oldest_gitee_releases` in `lib.rs`, as the
list of release ids passed to the delete operation, in call order.  The
`fetched` argument is the mirror list the function re-fetches; the function
sorts it the way `gitee_releases` does, keeps the first
`retain_count` entries and deletes the rest in iteration order. -/
def clean_oldest_gitee_releases (retain_count : Nat) (fetched : List Release) : List Nat :=
  if retain_count ≥ (sortDescById fetched).length then []
  else (((sortDescById fetched).drop retain_count).map (fun r => r.id))

/-- Asset diff from `release_asserts_diff` in `lib.rs`: origin assets whose
name does not occur among the mirror release's asset names, in origin
order. -/
def release_asserts_diff (release gitee_release : Release) : List Assert :=
  release.assets.filter (fun asset => !(gitee_release.assets.any (fun g => g.name == asset.name)))

/-- Outcome of the create-or-update decision for one release. -/
inductive SyncAction where
  | create
  | update
  | noop
deriving DecidableEq, Repr

/-- Model of the mirror registry's response to `gitee_release_create`: the
payload fields are echoed back under a fresh registry-assigned id, and a
just-created release carries no attachments (the `assets` field is skipped
during serialization and the attach operation has not run yet). -/
def created_release (new_id : Nat) (release : Release) : Release :=
  { release with id := new_id, assets := [] }

/-- Create-or-update decision from `gitee_release_create_or_update` in
`lib.rs`: create when no mirror counterpart exists; otherwise compare name,
URL-rewritten body and prerelease flag, updating on any difference (the
update payload keeps the mirror's id, tag and assets but takes the origin's
name, body and prerelease — note that it carries the original, un-rewritten
body, exactly as the source does).  `new_id` models the id the registry
assigns on creation. -/
def gitee_release_create_or_update (cli : Cli) (release : Release) (gitee_release : Option Release)
    (new_id : Nat) : SyncAction × Release :=
  match gitee_release with
  | none => (SyncAction.create, created_release new_id release)
  | some er =>
    let new_body := replace_release_body_url cli (release.body.getD "")
    if release.name ≠ er.name ∨ new_body ≠ er.body.getD "" ∨ release.prerelease ≠ er.prerelease then
      (SyncAction.update,
        { id := er.id, tag_name := er.tag_name, assets := er.assets,
          name := release.name, body := release.body,
          prerelease := release.prerelease, target_commitish := release.target_commitish })
    else (SyncAction.noop, er)

/-- Assets `sync_release` hands to the transfer engine: the diff of the
origin release against the release returned by the create-or-update step. -/
def sync_release_transfers (cli : Cli) (release : Release) (er : Option Release) (new_id : Nat) :
    List Assert :=
  release_asserts_diff release (gitee_release_create_or_update cli release er new_id).2

/-- Download loop from `download_release_asserts` in `lib.rs`.  The local
staging check (file exists with the declared size) is the `staged` oracle;
the network transfer together with the optional manifest rewrite is the `dl`
oracle.  A staged asset is skipped; a failed download is propagated by the
`?` operator of the source. -/
def download_release_asserts (staged : Assert → Bool) (dl : Assert → Except String Unit) :
    List Assert → Except String Unit
  | [] => Except.ok ()
  | a :: rest =>
    if staged a then download_release_asserts staged dl rest
    else
      match dl a with
      | Except.ok _ => download_release_asserts staged dl rest
      | Except.error e => Except.error e

/-- Upload loop from `upload_release_asserts` in `lib.rs`.  A missing local
file is logged and skipped (`continue` in the source); a failed upload is
propagated by the `?` operator. -/
def upload_release_asserts (file_exists : Assert → Bool) (ul : Assert → Except String Unit) :
    List Assert → Except String Unit
  | [] => Except.ok ()
  | a :: rest =>
    if file_exists a then
      match ul a with
      | Except.ok _ => upload_release_asserts file_exists ul rest
      | Except.error e => Except.error e
    else upload_release_asserts file_exists ul rest

/-- Per-release sync from `sync_release` in `lib.rs`: create-or-update, then
short-circuit when the asset diff is empty, otherwise download then upload,
each propagating its first failure. -/
def sync_release (cli : Cli) (release : Release) (er : Option Release) (new_id : Nat)
    (staged file_exists : Assert → Bool) (dl ul : Assert → Except String Unit) :
    Except String Unit :=
  let gitee_release := (gitee_release_create_or_update cli release er new_id).2
  let diff_asserts := release_asserts_diff release gitee_release
  if diff_asserts.isEmpty then Except.ok ()
  else
    match download_release_asserts staged dl diff_asserts with
    | Except.error e => Except.error e
    | Except.ok _ => upload_release_asserts file_exists ul diff_asserts

/-- One remote operation of a run, used for the whole-run trace. -/
inductive Op where
  | fetchGithub (per_page : Nat)
  | fetchGitee
  | createRelease (tag : String)
  | updateRelease (tag : String)
  | downloadAsset (name : String)
  | uploadAsset (name : String)
  | deleteRelease (id : Nat)
deriving DecidableEq, Repr

/-- Operations `sync_release` issues for one release when every transfer
succeeds and nothing is pre-staged: the create/update call (if any), then a
download and an upload per diffed asset. -/
def sync_release_ops (cli : Cli) (release : Release) (er : Option Release) (new_id : Nat) :
    List Op :=
  let step := gitee_release_create_or_update cli release er new_id
  let head_ops : List Op :=
    match step.1 with
    | SyncAction.create => [Op.createRelease release.tag_name]
    | SyncAction.update => [Op.updateRelease release.tag_name]
    | SyncAction.noop => []
  let diff := release_asserts_diff release step.2
  head_ops ++ diff.map (fun a => Op.downloadAsset a.name) ++ diff.map (fun a => Op.uploadAsset a.name)

/-- Whole-run operation trace of `sync_github_releases_to_gitee` in
`lib.rs`, for a run in which every remote call succeeds: fetch origin, fetch
mirror, process the filtered candidates oldest-first (matching mirror
counterparts by tag name), then re-fetch the mirror and prune.  The fetched
lists and the ids the registry assigns on creation are parameters. -/
def sync_github_releases_to_gitee (cmp : String → String → Option Ordering) (cli : Cli)
    (github_fetched gitee_fetched gitee_refetched : List Release) (new_id : Release → Nat) :
    List Op :=
  let github_releases := github_releases_post github_fetched
  let gitee_releases := sortDescById gitee_fetched
  let filtered := filter_github_releases cmp cli gitee_releases github_releases
  Op.fetchGithub cli.github_latest_release_count :: Op.fetchGitee ::
    ((filtered.reverse.map (fun r =>
        sync_release_ops cli r (gitee_releases.find? (fun gr => gr.tag_name == r.tag_name))
          (new_id r))).flatten
      ++ (Op.fetchGitee ::
          (clean_oldest_gitee_releases cli.gitee_retain_release_count gitee_refetched).map
            Op.deleteRelease))

/-! Concrete inputs used by the witnesses and counterexamples. -/

/-- Baseline configuration with the defaults of `model.rs`. -/
def baseCli : Cli :=
  { github_owner := "hepengju", github_repo := "release2gitee", github_token := none,
    gitee_owner := "hepengju", gitee_repo := "release2gitee", gitee_token := "tok",
    github_latest_release_count := 5, gitee_retain_release_count := 999,
    ignore_lt_gitee_max_version := true, release_body_url_replace := true,
    latest_json_url_replace := true }

/-- Configuration with the skip-if-not-newer toggle enabled. -/
def cliToggleOn : Cli := baseCli

/-- Configuration with the skip-if-not-newer toggle disabled. -/
def cliToggleOff : Cli := { baseCli with ignore_lt_gitee_max_version := false }

/-- Configuration violating the claimed invariant: retain count 0 is smaller
than the fetch count 5. -/
def cliBad : Cli := { baseCli with gitee_retain_release_count := 0 }

/-- Configuration for the idempotence counterexample, mirroring
`hepengju/redis-me` with the body URL rewrite enabled. -/
def cliC1 : Cli := { baseCli with github_repo := "redis-me", gitee_repo := "redis-me" }

/-- Same configuration with the body URL rewrite disabled. -/
def cliC1noRep : Cli := { cliC1 with release_body_url_replace := false }

/-- Minimal release used for retention tests, distinguished by id. -/
def plainRelease (n : Nat) : Release :=
  { id := n, tag_name := "r", name := "r", body := some "b", prerelease := false,
    target_commitish := "master", assets := [] }

/-- Mirror releases with ids 1..120, as in the retention example of §8. -/
def releases120 : List Release := (List.range 120).map (fun i => plainRelease (i + 1))

/-- Mirror releases with ids 1, 2, 3. -/
def releases3 : List Release := [plainRelease 1, plainRelease 2, plainRelease 3]

/-- Origin release tagged v1.0.0 for the version-filter example. -/
def origin100 : Release :=
  { id := 3, tag_name := "v1.0.0", name := "v1.0.0", body := some "n3", prerelease := false,
    target_commitish := "master", assets := [] }

/-- Origin release tagged v0.9.2. -/
def origin092 : Release :=
  { id := 2, tag_name := "v0.9.2", name := "v0.9.2", body := some "n2", prerelease := false,
    target_commitish := "master", assets := [] }

/-- Origin release tagged v0.9.0. -/
def origin090 : Release :=
  { id := 1, tag_name := "v0.9.0", name := "v0.9.0", body := some "n1", prerelease := false,
    target_commitish := "master", assets := [] }

/-- Origin list of the version-filter example, newest first. -/
def originsC6 : List Release := [origin100, origin092, origin090]

/-- Origin release whose tag is not a parseable version. -/
def originEmptyTag : Release :=
  { id := 4, tag_name := "", name := "snapshot", body := some "n4", prerelease := false,
    target_commitish := "master", assets := [] }

/-- Mirror release tagged v0.9.2, the mirror maximum of the example. -/
def mirror092 : Release :=
  { id := 50, tag_name := "v0.9.2", name := "v0.9.2", body := some "m", prerelease := false,
    target_commitish := "4f2a0c9", assets := [] }

/-- Origin release with two assets, used for the transfer-failure inputs. -/
def assetA : Assert :=
  { name := "app.zip", size := some 100,
    browser_download_url := "https://github.com/hepengju/release2gitee/releases/download/v1.0.0/app.zip" }

/-- Second asset of the transfer-failure inputs. -/
def assetB : Assert :=
  { name := "latest.json", size := some 7,
    browser_download_url := "https://github.com/hepengju/release2gitee/releases/download/v1.0.0/latest.json" }

/-- Origin release carrying the two assets above. -/
def relC3 : Release :=
  { id := 5, tag_name := "v1.0.0", name := "v1.0.0", body := some "v1.0.0", prerelease := false,
    target_commitish := "master", assets := [assetA, assetB] }

/-- Origin release whose body contains the origin's canonical base URL. -/
def relC1 : Release :=
  { id := 11, tag_name := "v1.0.0", name := "v1.0.0",
    body := some "download at https://github.com/hepengju/redis-me/releases",
    prerelease := false, target_commitish := "master", assets := [] }

/-- Origin release without assets, used for the configuration trace. -/
def originB : Release :=
  { id := 21, tag_name := "v1.0.0", name := "v1.0.0", body := some "notes", prerelease := false,
    target_commitish := "master", assets := [] }

/-- Origin release with an empty body and tag v2.0.0, from §8. -/
def relV2 : Release :=
  { id := 42, tag_name := "v2.0.0", name := "v2.0.0", body := none, prerelease := false,
    target_commitish := "master", assets := [] }

/-! Helper lemmas about the ordering normalization and the filters. -/

instance : IsTotal Release (fun a b => a.id ≤ b.id) := ⟨fun a b => Nat.le_total a.id b.id⟩

instance : IsTrans Release (fun a b => a.id ≤ b.id) := ⟨fun _ _ _ h1 h2 => Nat.le_trans h1 h2⟩

theorem sortDescById_perm (l : List Release) : (sortDescById l).Perm l :=
  (List.reverse_perm _).trans (List.perm_insertionSort _ l)

theorem sortDescById_sorted_ge (l : List Release) :
    (sortDescById l).Pairwise (fun a b => b.id ≤ a.id) :=
  List.pairwise_reverse.mpr (List.sorted_insertionSort (fun a b : Release => a.id ≤ b.id) l)

theorem sortDescById_sorted_of_nodup (l : List Release)
    (h : (l.map (fun r => r.id)).Nodup) :
    (sortDescById l).Sorted (fun a b => b.id < a.id) := by
  have hne : l.Pairwise (fun a b => a.id ≠ b.id) := List.pairwise_map.mp h
  have hp : (sortDescById l).Perm l := sortDescById_perm l
  have hne' : (sortDescById l).Pairwise (fun a b => a.id ≠ b.id) :=
    (hp.pairwise_iff (fun hxy => hxy.symm)).mpr hne
  exact ((sortDescById_sorted_ge l).and hne').imp
    (fun hab => Nat.lt_of_le_of_ne hab.1 (Ne.symm hab.2))

theorem mem_drop_iff_countGt (rs : List Release) :
    rs.Sorted (fun a b => b.id < a.id) →
    ∀ (n : Nat) (x : Release), x ∈ rs →
      (x ∈ rs.drop n ↔ n ≤ (rs.filter (fun r => x.id < r.id)).length) := by
  induction rs with
  | nil => intro _ n x hx; cases hx
  | cons a t ih =>
    intro hs n x hx
    rw [List.sorted_cons] at hs
    obtain ⟨ha, ht⟩ := hs
    cases n with
    | zero => simp [hx]
    | succ m =>
      rcases List.mem_cons.mp hx with rfl | hxt
      · have hfilter : (x :: t).filter (fun r => x.id < r.id) = [] := by
          rw [List.filter_eq_nil_iff]
          intro b hb
          rcases List.mem_cons.mp hb with rfl | hbt
          · simp
          · have := ha b hbt
            simp only [decide_eq_true_eq]
            omega
        rw [List.drop_succ_cons, hfilter]
        simp only [List.length_nil]
        constructor
        · intro hmem
          exact absurd (ha x (List.mem_of_mem_drop hmem)) (Nat.lt_irrefl x.id)
        · intro hle
          omega
      · have hxa : x.id < a.id := ha x hxt
        have hcons : (a :: t).filter (fun r => x.id < r.id) =
            a :: t.filter (fun r => x.id < r.id) := by
          simp [List.filter_cons, hxa]
        rw [List.drop_succ_cons, hcons]
        simp only [List.length_cons]
        rw [ih ht m x hxt]
        omega

theorem mem_clean_iff (l : List Release) (n : Nat) (h : (l.map (fun r => r.id)).Nodup)
    (r : Release) (hr : r ∈ l) :
    r.id ∈ clean_oldest_gitee_releases n l ↔
      n ≤ (l.filter (fun r2 => r.id < r2.id)).length := by
  have hp := sortDescById_perm l
  have hs := sortDescById_sorted_of_nodup l h
  have hlen : (sortDescById l).length = l.length := hp.length_eq
  have hfl : ((sortDescById l).filter (fun r2 => r.id < r2.id)).length =
      (l.filter (fun r2 => r.id < r2.id)).length := (hp.filter _).length_eq
  have hrs : r ∈ sortDescById l := hp.mem_iff.mpr hr
  unfold clean_oldest_gitee_releases
  split
  · rename_i hge
    rw [hlen] at hge
    simp only [List.not_mem_nil, false_iff]
    intro hle
    have hsub : (l.filter (fun r2 => r.id < r2.id)).Sublist l := List.filter_sublist l
    have hlt : (l.filter (fun r2 => r.id < r2.id)).length < l.length := by
      rcases Nat.lt_or_ge (l.filter (fun r2 => r.id < r2.id)).length l.length with hlt | hge2
      · exact hlt
      · have heq : (l.filter (fun r2 => r.id < r2.id)).length = l.length :=
          Nat.le_antisymm hsub.length_le hge2
        have hfeq : l.filter (fun r2 => r.id < r2.id) = l := hsub.eq_of_length heq
        have hdec : decide (r.id < r.id) = true := List.filter_eq_self.mp hfeq r hr
        simp at hdec
    omega
  · rw [List.mem_map]
    constructor
    · rintro ⟨x, hxdrop, hxid⟩
      have hxl : x ∈ l := hp.mem_iff.mp (List.mem_of_mem_drop hxdrop)
      have hxr : x = r := List.inj_on_of_nodup_map h hxl hr hxid
      subst hxr
      have hmem := (mem_drop_iff_countGt (sortDescById l) hs n x hrs).mp hxdrop
      rw [hfl] at hmem
      exact hmem
    · intro hle
      refine ⟨r, ?_, rfl⟩
      exact (mem_drop_iff_countGt (sortDescById l) hs n r hrs).mpr (by rw [hfl]; exact hle)

theorem retain_take_eq (n : Nat) (l : List Release) :
    (if n > l.length then l.take n else l) = l := by
  split
  · exact List.take_of_length_le (Nat.le_of_lt (by assumption))
  · rfl

theorem filter_github_releases_toggle_on (cmp : String → String → Option Ordering) (cli : Cli)
    (gitee github : List Release) (m : String)
    (hi : cli.ignore_lt_gitee_max_version = true) (hne : gitee ≠ [])
    (hm : maxGiteeTag cmp gitee = some m) :
    filter_github_releases cmp cli gitee github = github.filter (version_keep cmp m) := by
  have hE : gitee.isEmpty = false := by
    cases gitee with
    | nil => exact absurd rfl hne
    | cons a t => rfl
  simp only [filter_github_releases, retain_take_eq, hi, hE, hm, Bool.not_false, Bool.and_self,
    if_true]

theorem download_release_asserts_all_ok (staged : Assert → Bool)
    (dl : Assert → Except String Unit) (hdl : ∀ x, dl x = Except.ok ()) :
    ∀ l, download_release_asserts staged dl l = Except.ok () := by
  intro l
  induction l with
  | nil => rfl
  | cons a rest ih =>
    simp only [download_release_asserts, hdl a]
    split
    · exact ih
    · exact ih

theorem upload_release_asserts_all_missing (ul : Assert → Except String Unit) :
    ∀ l, upload_release_asserts (fun _ => false) ul l = Except.ok () := by
  intro l
  induction l with
  | nil => rfl
  | cons a rest ih => simpa [upload_release_asserts] using ih

/-! Claim theorems. -/

/-- C1: the second run of the sync against an unchanged origin is NOT
idempotent — evaluation at the failing input.  With the body URL rewrite
enabled and an origin body containing the origin's base URL, the mirror
counterpart produced by the first run (which stored the body exactly as
posted) differs from the rewritten comparison body, so
`gitee_release_create_or_update` takes the update branch on the second run;
moreover the update payload again carries the un-rewritten body, so no later
run can converge either.  With the rewrite toggle disabled the same input
takes the no-update branch, locating the slip in the body comparison. -/
theorem second_run_updates_url_body :
    (gitee_release_create_or_update cliC1 relC1 (some (created_release 1000 relC1)) 2000).1 =
      SyncAction.update ∧
    (gitee_release_create_or_update cliC1 relC1 (some (created_release 1000 relC1)) 2000).2.body =
      relC1.body ∧
    (gitee_release_create_or_update cliC1noRep relC1 (some (created_release 1000 relC1)) 2000).1 =
      SyncAction.noop :=
  ⟨by decide, by decide, by decide⟩

/-- C2 counterexample: a configuration violating the claimed invariant
retain-count ≥ fetch-count ≥ 1 (retain 0, fetch 5) is not rejected: the run
still issues a create and a delete on the mirror registry. -/
theorem invalid_config_still_syncs :
    ¬ (1 ≤ cliBad.github_latest_release_count ∧
        cliBad.github_latest_release_count ≤ cliBad.gitee_retain_release_count) ∧
    Op.createRelease "v1.0.0" ∈
      sync_github_releases_to_gitee compareVersions cliBad [originB] []
        [created_release 1000 originB] (fun _ => 1000) ∧
    Op.deleteRelease 1000 ∈
      sync_github_releases_to_gitee compareVersions cliBad [originB] []
        [created_release 1000 originB] (fun _ => 1000) :=
  ⟨by decide, by decide, by decide⟩

/-- C2 (amended): no count validation exists — even a configuration
violating retain-count ≥ fetch-count ≥ 1 proceeds straight to the origin and
mirror fetches (and the rest of the run) instead of aborting with a
configuration error. -/
theorem run_starts_with_fetches_without_validation (cmp : String → String → Option Ordering)
    (cli : Cli) (github gitee gitee2 : List Release) (new_id : Release → Nat)
    (_h : ¬ (1 ≤ cli.github_latest_release_count ∧
        cli.github_latest_release_count ≤ cli.gitee_retain_release_count)) :
    (sync_github_releases_to_gitee cmp cli github gitee gitee2 new_id).take 2 =
      [Op.fetchGithub cli.github_latest_release_count, Op.fetchGitee] := rfl

/-- Witness for the amended C2 at the violating configuration. -/
theorem run_starts_with_fetches_without_validation_witness :
    ¬ (1 ≤ cliBad.github_latest_release_count ∧
        cliBad.github_latest_release_count ≤ cliBad.gitee_retain_release_count) ∧
    (sync_github_releases_to_gitee compareVersions cliBad [originB] [] []
        (fun _ => 1000)).take 2 =
      [Op.fetchGithub cliBad.github_latest_release_count, Op.fetchGitee] :=
  ⟨by decide, run_starts_with_fetches_without_validation compareVersions cliBad [originB] [] []
      (fun _ => 1000) (by decide)⟩

/-- C3 counterexample: an individual asset's download failure is not logged
and skipped — `sync_release` propagates it instead of returning success. -/
theorem transfer_error_not_skipped :
    sync_release baseCli relC3 none 7 (fun _ => false) (fun _ => true)
        (fun _ => Except.error "download failed") (fun _ => Except.ok ()) =
      Except.error "download failed" ∧
    sync_release baseCli relC3 none 7 (fun _ => false) (fun _ => true)
        (fun _ => Except.error "download failed") (fun _ => Except.ok ()) ≠ Except.ok () :=
  ⟨rfl, fun h => Except.noConfusion h⟩

/-- C3 (amended): an individual asset transfer failure is fatal, not logged
and skipped.  (1) When the first non-staged asset of a nonempty diff fails
to download, `sync_release` aborts with that error; (2) when downloads
succeed and the first diffed asset, whose local file exists, fails to
upload, `sync_release` aborts with that error (the main loop then
propagates either error, aborting the remaining assets and every subsequent
release).  The only skip in the upload loop is a missing local file:
(3) such an asset is passed over with the loop continuing on the rest, and
(4) when every local file is missing `sync_release` still returns
success. -/
theorem transfer_error_aborts_sync :
    (∀ (cli : Cli) (release : Release) (er : Option Release) (new_id : Nat)
        (staged file_exists : Assert → Bool) (dl ul : Assert → Except String Unit)
        (a : Assert) (rest : List Assert) (e : String),
        release_asserts_diff release (gitee_release_create_or_update cli release er new_id).2 =
          a :: rest →
        staged a = false → dl a = Except.error e →
        sync_release cli release er new_id staged file_exists dl ul = Except.error e) ∧
    (∀ (cli : Cli) (release : Release) (er : Option Release) (new_id : Nat)
        (staged file_exists : Assert → Bool) (dl ul : Assert → Except String Unit)
        (a : Assert) (rest : List Assert) (e : String),
        release_asserts_diff release (gitee_release_create_or_update cli release er new_id).2 =
          a :: rest →
        (∀ x, dl x = Except.ok ()) → file_exists a = true → ul a = Except.error e →
        sync_release cli release er new_id staged file_exists dl ul = Except.error e) ∧
    (∀ (file_exists : Assert → Bool) (ul : Assert → Except String Unit)
        (a : Assert) (rest : List Assert), file_exists a = false →
        upload_release_asserts file_exists ul (a :: rest) =
          upload_release_asserts file_exists ul rest) ∧
    (∀ (cli : Cli) (release : Release) (er : Option Release) (new_id : Nat)
        (staged : Assert → Bool) (dl ul : Assert → Except String Unit),
        (∀ x, dl x = Except.ok ()) →
        sync_release cli release er new_id staged (fun _ => false) dl ul = Except.ok ()) := by
  refine ⟨?_, ?_, ?_, ?_⟩
  · intro cli release er new_id staged file_exists dl ul a rest e hdiff hstaged hdl
    simp only [sync_release, hdiff, List.isEmpty_cons, Bool.false_eq_true, if_false,
      download_release_asserts, hstaged, hdl]
  · intro cli release er new_id staged file_exists dl ul a rest e hdiff hdl hfe hul
    simp only [sync_release, hdiff, List.isEmpty_cons, Bool.false_eq_true, if_false,
      download_release_asserts_all_ok staged dl hdl, upload_release_asserts, hfe, if_true, hul]
  · intro file_exists ul a rest hfe
    simp only [upload_release_asserts, hfe, Bool.false_eq_true, if_false]
  · intro cli release er new_id staged dl ul hdl
    simp only [sync_release]
    split
    · rfl
    · rw [download_release_asserts_all_ok staged dl hdl]
      exact upload_release_asserts_all_missing ul _

/-- Witness for the amended C3 on the two-asset release: a failing download
aborts, a failing upload aborts, a missing local file makes the upload loop
skip to the remaining assets, and with every local file missing the sync
still succeeds. -/
theorem transfer_error_aborts_sync_witness :
    (release_asserts_diff relC3 (gitee_release_create_or_update baseCli relC3 none 7).2 =
        assetA :: [assetB] ∧
      (fun _ : Assert => false) assetA = false ∧
      (fun _ : Assert => (Except.error "dwn" : Except String Unit)) assetA =
        Except.error "dwn" ∧
      (fun _ : Assert => true) assetA = true ∧
      (fun _ : Assert => (Except.error "upl" : Except String Unit)) assetA =
        Except.error "upl") ∧
    sync_release baseCli relC3 none 7 (fun _ => false) (fun _ => true)
        (fun _ => Except.error "dwn") (fun _ => Except.ok ()) = Except.error "dwn" ∧
    sync_release baseCli relC3 none 7 (fun _ => false) (fun _ => true)
        (fun _ => Except.ok ()) (fun _ => Except.error "upl") = Except.error "upl" ∧
    upload_release_asserts (fun _ => false) (fun _ => (Except.error "upl" : Except String Unit))
        (assetA :: [assetB]) =
      upload_release_asserts (fun _ => false) (fun _ => (Except.error "upl" : Except String Unit))
        [assetB] ∧
    sync_release baseCli relC3 none 7 (fun _ => false) (fun _ => false)
        (fun _ => Except.ok ()) (fun _ => Except.error "upl") = Except.ok () :=
  ⟨⟨by decide, rfl, rfl, rfl, rfl⟩,
    transfer_error_aborts_sync.1 baseCli relC3 none 7 (fun _ => false) (fun _ => true)
      (fun _ => Except.error "dwn") (fun _ => Except.ok ()) assetA [assetB] "dwn"
      (by decide) rfl rfl,
    transfer_error_aborts_sync.2.1 baseCli relC3 none 7 (fun _ => false) (fun _ => true)
      (fun _ => Except.ok ()) (fun _ => Except.error "upl") assetA [assetB] "upl"
      (by decide) (fun _ => rfl) rfl rfl,
    transfer_error_aborts_sync.2.2.1 (fun _ => false)
      (fun _ => (Except.error "upl" : Except String Unit)) assetA [assetB] rfl,
    transfer_error_aborts_sync.2.2.2 baseCli relC3 none 7 (fun _ => false)
      (fun _ => Except.ok ()) (fun _ => Except.error "upl") (fun _ => rfl)⟩

/-- C4: the retention pruner deletes exactly the releases with at least N
strictly larger ids (so it keeps exactly the N releases with the largest
ids, and deletes nothing when the list has at most N elements); concretely,
with mirror ids 1..120 and retain count 100 exactly ids 20 down to 1 are
deleted. -/
theorem retention_prunes_beyond_n_largest :
    (∀ (l : List Release) (n : Nat), (l.map (fun r => r.id)).Nodup →
        ∀ r ∈ l, (r.id ∈ clean_oldest_gitee_releases n l ↔
          n ≤ (l.filter (fun r2 => r.id < r2.id)).length)) ∧
    clean_oldest_gitee_releases 100 releases120 = (List.range 20).map (fun i => 20 - i) :=
  ⟨fun l n h r hr => mem_clean_iff l n h r hr, by decide⟩

/-- Witness for C4 on the three-release mirror list. -/
theorem retention_prunes_beyond_n_largest_witness :
    ((releases3.map (fun r => r.id)).Nodup ∧ plainRelease 1 ∈ releases3) ∧
    ((plainRelease 1).id ∈ clean_oldest_gitee_releases 1 releases3 ↔
      1 ≤ (releases3.filter (fun r2 => (plainRelease 1).id < r2.id)).length) :=
  ⟨⟨by decide, by decide⟩,
    retention_prunes_beyond_n_largest.1 releases3 1 (by decide) (plainRelease 1) (by decide)⟩

/-- C5 counterexample: with mirror ids 1, 2, 3 and retain count 1 the pruner
deletes more than one release, and the sequence of ids passed to the delete
operation is 2 then 1 — not ascending, and the smallest pruned id is not
deleted first. -/
theorem clean_delete_order_not_ascending :
    clean_oldest_gitee_releases 1 releases3 = [2, 1] ∧
    1 < (clean_oldest_gitee_releases 1 releases3).length ∧
    ¬ (clean_oldest_gitee_releases 1 releases3).Sorted (fun a b => a < b) :=
  ⟨by decide, by decide, by decide⟩

/-- C5 (amended): the delete calls are issued newest-first — for mirror
releases with distinct ids, the sequence of ids passed to the delete
operation is strictly descending (the release with the largest id among
those pruned is deleted first, the smallest last). -/
theorem clean_deletes_newest_pruned_first (l : List Release) (n : Nat)
    (h : (l.map (fun r => r.id)).Nodup) :
    (clean_oldest_gitee_releases n l).Sorted (fun a b => b < a) := by
  unfold clean_oldest_gitee_releases
  split
  · exact List.sorted_nil
  · have hs := sortDescById_sorted_of_nodup l h
    have hdrop : ((sortDescById l).drop n).Pairwise (fun a b => b.id < a.id) :=
      List.Pairwise.sublist (List.drop_sublist n (sortDescById l)) hs
    exact List.pairwise_map.mpr hdrop

/-- Witness for the amended C5 on the three-release mirror list. -/
theorem clean_deletes_newest_pruned_first_witness :
    (releases3.map (fun r => r.id)).Nodup ∧
    (clean_oldest_gitee_releases 1 releases3).Sorted (fun a b => b < a) :=
  ⟨by decide, clean_deletes_newest_pruned_first releases3 1 (by decide)⟩

/-- C6: with the skip toggle enabled and a nonempty mirror, a release whose
tag conclusively compares less-or-equal to the mirror's maximum tag is
dropped and one that compares greater is kept; concretely, origin tags
v1.0.0, v0.9.2, v0.9.0 against mirror maximum v0.9.2 select only v1.0.0,
while the disabled toggle selects all three. -/
theorem version_filter_selects_greater :
    (∀ (cmp : String → String → Option Ordering) (cli : Cli) (gitee github : List Release)
        (m : String) (r : Release),
        cli.ignore_lt_gitee_max_version = true → gitee ≠ [] → maxGiteeTag cmp gitee = some m →
        ((cmp m r.tag_name = some Ordering.gt ∨ cmp m r.tag_name = some Ordering.eq) →
            r ∉ filter_github_releases cmp cli gitee github) ∧
          (cmp m r.tag_name = some Ordering.lt → r ∈ github →
            r ∈ filter_github_releases cmp cli gitee github)) ∧
    filter_github_releases compareVersions cliToggleOn [mirror092] originsC6 = [origin100] ∧
    filter_github_releases compareVersions cliToggleOff [mirror092] originsC6 = originsC6 := by
  refine ⟨?_, by decide, by decide⟩
  intro cmp cli gitee github m r hi hne hm
  rw [filter_github_releases_toggle_on cmp cli gitee github m hi hne hm]
  constructor
  · intro hcmp hmem
    have hkeep := (List.mem_filter.mp hmem).2
    rcases hcmp with h | h <;> simp [version_keep, h] at hkeep
  · intro hcmp hr
    exact List.mem_filter.mpr ⟨hr, by simp [version_keep, hcmp]⟩

/-- Witness for C6: v0.9.2 compares equal to the mirror maximum and is
dropped from the concrete origin list. -/
theorem version_filter_selects_greater_witness :
    (cliToggleOn.ignore_lt_gitee_max_version = true ∧ ([mirror092] : List Release) ≠ [] ∧
      maxGiteeTag compareVersions [mirror092] = some "v0.9.2" ∧
      compareVersions "v0.9.2" origin092.tag_name = some Ordering.eq) ∧
    origin092 ∉ filter_github_releases compareVersions cliToggleOn [mirror092] originsC6 :=
  ⟨⟨rfl, by decide, by decide, by decide⟩,
    (version_filter_selects_greater.1 compareVersions cliToggleOn [mirror092] originsC6
        "v0.9.2" origin092 rfl (by decide) (by decide)).1 (Or.inr (by decide))⟩

/-- C7: a release whose tag cannot be compared against the mirror's maximum
tag (the comparator is inconclusive) is kept by the filter even with the
skip toggle enabled. -/
theorem inconclusive_compare_keeps_release (cmp : String → String → Option Ordering) (cli : Cli)
    (gitee github : List Release) (m : String) (r : Release)
    (hi : cli.ignore_lt_gitee_max_version = true) (hne : gitee ≠ [])
    (hm : maxGiteeTag cmp gitee = some m) (hc : cmp m r.tag_name = none) (hr : r ∈ github) :
    r ∈ filter_github_releases cmp cli gitee github := by
  rw [filter_github_releases_toggle_on cmp cli gitee github m hi hne hm]
  exact List.mem_filter.mpr ⟨hr, by simp [version_keep, hc]⟩

/-- Witness for C7: a release with an unparseable (empty) tag survives the
enabled filter. -/
theorem inconclusive_compare_keeps_release_witness :
    (cliToggleOn.ignore_lt_gitee_max_version = true ∧ ([mirror092] : List Release) ≠ [] ∧
      maxGiteeTag compareVersions [mirror092] = some "v0.9.2" ∧
      compareVersions "v0.9.2" originEmptyTag.tag_name = none ∧
      originEmptyTag ∈ [originEmptyTag]) ∧
    originEmptyTag ∈
      filter_github_releases compareVersions cliToggleOn [mirror092] [originEmptyTag] :=
  ⟨⟨rfl, by decide, by decide, by decide, by decide⟩,
    inconclusive_compare_keeps_release compareVersions cliToggleOn [mirror092] [originEmptyTag]
      "v0.9.2" originEmptyTag rfl (by decide) (by decide) (by decide) (by decide)⟩

/-- C8: the asset diff contains exactly the origin assets whose name does
not occur among the mirror release's asset names (size and URL play no
role), and for a release without a mirror counterpart the transfer list of
`sync_release` is the origin's full asset list. -/
theorem asserts_diff_by_name_only :
    (∀ (release gitee_release : Release) (a : Assert),
        a ∈ release_asserts_diff release gitee_release ↔
          a ∈ release.assets ∧ ∀ g ∈ gitee_release.assets, g.name ≠ a.name) ∧
    ∀ (cli : Cli) (release : Release) (new_id : Nat),
      sync_release_transfers cli release none new_id = release.assets := by
  constructor
  · intro release gitee_release a
    simp [release_asserts_diff, List.mem_filter]
  · intro cli release new_id
    simp [sync_release_transfers, gitee_release_create_or_update, created_release,
      release_asserts_diff]

/-- C9: an origin release whose body is absent or empty has the tag name
substituted as its body during the fetch normalization — before any
comparison or payload — and the concrete empty-body release tagged v2.0.0 is
created on the mirror with body v2.0.0. -/
theorem empty_body_replaced_by_tag :
    (∀ release : Release, release.body = none ∨ release.body = some "" →
        set_body_if_empty release = { release with body := some release.tag_name }) ∧
    (created_release 1000 (set_body_if_empty relV2)).body = some "v2.0.0" := by
  constructor
  · intro release h
    rcases h with h | h <;> simp [set_body_if_empty, h]
  · decide

/-- Witness for C9 at the empty-body release. -/
theorem empty_body_replaced_by_tag_witness :
    (relV2.body = none ∨ relV2.body = some "") ∧
    set_body_if_empty relV2 = { relV2 with body := some relV2.tag_name } :=
  ⟨Or.inl rfl, empty_body_replaced_by_tag.1 relV2 (Or.inl rfl)⟩

/-- C10: the count-based trimming step of the filter is a no-op — whenever
the version gate does not apply (toggle disabled or empty mirror list), the
filter returns the origin list unchanged, regardless of the retain count. -/
theorem filter_identity_without_version_gate (cmp : String → String → Option Ordering)
    (cli : Cli) (gitee github : List Release)
    (h : cli.ignore_lt_gitee_max_version = false ∨ gitee = []) :
    filter_github_releases cmp cli gitee github = github := by
  simp only [filter_github_releases, retain_take_eq]
  rcases h with h | rfl
  · rw [h]; simp
  · simp

/-- Witness for C10 with the toggle disabled and a tiny retain count. -/
theorem filter_identity_without_version_gate_witness :
    (cliToggleOff.ignore_lt_gitee_max_version = false ∨ ([mirror092] : List Release) = []) ∧
    filter_github_releases compareVersions cliToggleOff [mirror092] originsC6 = originsC6 :=
  ⟨Or.inl rfl,
    filter_identity_without_version_gate compareVersions cliToggleOff [mirror092] originsC6
      (Or.inl rfl)⟩

end Release2Gitee
